import Mathlib

/-!
Shallow embedding of the music-watcher repository: the DBus signal handlers
(dbus.go) and the SQL storage engine (StoreData and friends), together with
theorems checking the specification's claims against them.
-/

set_option linter.unusedVariables false

namespace MusicWatch

/-- Values carried in a dbus.Variant, as far as this program inspects them:
strings, string slices, nested string-to-variant maps, and anything else. -/
inductive DBusValue where
| str : String → DBusValue
| strList : List String → DBusValue
| dict : List (String × DBusValue) → DBusValue
| other : DBusValue

/-- The Metadata struct of dbus.go (field names as in the source). -/
structure Metadata where
  Album : String := ""
  AlbumArtist : List String := []
  Url : String := ""
  Artist : List String := []
  Composer : List String := []
  TrackId : String := ""
  Title : String := ""
deriving DecidableEq, Repr

/-- The error values declared in dbus.go, plus markers for errors that
arrive from the bus layer or from the injected callback. -/
inductive GoError where
| ErrMetadataFailed
| ErrInvalidType
| ErrInvalidSignalBody
| ErrNoStatus
| busError
| callbackError
deriving DecidableEq, Repr

/-- Result of one handler invocation: a nil return, an error return, or a
Go runtime panic (e.g. an out-of-range slice index). -/
inductive HandlerResult where
| ok
| err : GoError → HandlerResult
| panicked
deriving DecidableEq, Repr

/-- A dbus.Signal as the handlers consume it. -/
structure Signal where
  Sender : String
  Name : String
  Body : List DBusValue

/-- Go map lookup on an association-list model of map[string]V. -/
def mapLookup {α : Type} (m : List (String × α)) (k : String) : Option α :=
  (m.find? (fun kv => kv.1 == k)).map Prod.snd

/-- Go map assignment m[k] = v (keys are unique in the model). -/
def mapInsert {α : Type} (m : List (String × α)) (k : String) (v : α) : List (String × α) :=
  match m with
  | [] => [(k, v)]
  | kv :: rest => if kv.1 == k then (k, v) :: rest else kv :: mapInsert rest k v

/-- Go delete(m, k). -/
def mapErase {α : Type} (m : List (String × α)) (k : String) : List (String × α) :=
  match m with
  | [] => []
  | kv :: rest => if kv.1 == k then rest else kv :: mapErase rest k

/-- strings.HasPrefix, via character lists so closed instances reduce. -/
def hasPre (s pre : String) : Bool :=
  pre.data.isPrefixOf s.data

/-- strings.HasSuffix, via character lists so closed instances reduce. -/
def hasSuf (s suf : String) : Bool :=
  suf.data.isSuffixOf s.data

/-- The filteredPlayers blocklist of dbus.go. -/
def filteredPlayers : List String := ["playerctld"]

/-- isFilteredPlayer from dbus.go: suffix match against the blocklist. -/
def isFilteredPlayer (serviceName : String) : Bool :=
  filteredPlayers.any (fun name => hasSuf serviceName name)

/-- The three process-wide registry maps of dbus.go. -/
structure RegistryState where
  busNameToName : List (String × String)
  nameToBusName : List (String × String)
  nameToCurrent : List (String × Metadata)
deriving DecidableEq, Repr

/-- The empty registry (initial state of the three maps). -/
def RegistryState.empty : RegistryState := ⟨[], [], []⟩

/-- getAny[string]: the value and the ok flag of the Go type assertion. -/
def getString : DBusValue → String × Bool
| .str s => (s, true)
| _ => ("", false)

/-- getAny[[]string]: the value and the ok flag of the Go type assertion. -/
def getStringList : DBusValue → List String × Bool
| .strList l => (l, true)
| _ => ([], false)

/-- One iteration of the parseMetadata loop body of dbus.go. -/
def parseEntry (metadata : Metadata) (kv : String × DBusValue) : Metadata :=
  match kv.1 with
  | "xesam:album" => { metadata with Album := (getString kv.2).1 }
  | "xesam:albumArtist" => { metadata with AlbumArtist := (getStringList kv.2).1 }
  | "xesam:url" => { metadata with Url := (getString kv.2).1 }
  | "xesam:artist" => { metadata with Artist := (getStringList kv.2).1 }
  | "xesam:composer" => { metadata with Composer := (getStringList kv.2).1 }
  | "mb:trackId" => { metadata with TrackId := (getString kv.2).1 }
  | "xesam:title" =>
      let temp := getString kv.2
      if temp.2 then { metadata with Title := temp.1 } else metadata
  | _ => metadata

/-- parseMetadata from dbus.go: best-effort fold over the property map. -/
def parseMetadata (metaMap : List (String × DBusValue)) : Metadata :=
  metaMap.foldl parseEntry {}

/-- IsSameTrack from dbus.go: url and title must both match exactly. -/
def Metadata.IsSameTrack (m other : Metadata) : Bool :=
  m.Url == other.Url && m.Title == other.Title

/-- The bus-facing and callback-facing environment of one handler call:
the result of the GetNameOwner bus query, the result of the synchronous
GetMetadata property fetch, and what the injected callback returns. -/
structure BusEnv where
  getNameOwner : String → Option String
  getMetadata : String → Option Metadata
  callbackReturns : Metadata → Option GoError

/-- Observable outcome of one handler invocation: the registry state after
the call, the callback invocations in order, and the returned value. -/
structure HandlerOutcome where
  state : RegistryState
  calls : List Metadata
  result : HandlerResult
deriving DecidableEq, Repr

/-- The handler result of `return callback(ctx, m)`. -/
def cbResult (env : BusEnv) (m : Metadata) : HandlerResult :=
  match env.callbackReturns m with
  | none => .ok
  | some e => .err e

/-- addPlayer from dbus.go: query GetNameOwner, then insert both map
directions; on a failed bus call the maps are untouched. -/
def addPlayer (env : BusEnv) (st : RegistryState) (name : String) :
    RegistryState × Option GoError :=
  match env.getNameOwner name with
  | none => (st, some .busError)
  | some busName =>
      ({ st with
          busNameToName := mapInsert st.busNameToName busName name,
          nameToBusName := mapInsert st.nameToBusName name busName }, none)

/-- The fallback scan of removePlayer: delete the first bus entry mapping
to the given service name (Go iterates the map and breaks on a match). -/
def removeFirstByValue (m : List (String × String)) (v : String) : List (String × String) :=
  match m with
  | [] => []
  | kv :: rest => if kv.2 == v then rest else kv :: removeFirstByValue rest v

/-- removePlayer from dbus.go. -/
def removePlayer (st : RegistryState) (name : String) : RegistryState :=
  match mapLookup st.nameToBusName name with
  | none =>
      { st with busNameToName := removeFirstByValue st.busNameToName name }
  | some busName =>
      if (mapLookup st.busNameToName busName).isSome then
        { st with
            busNameToName := mapErase st.busNameToName busName,
            nameToBusName := mapErase st.nameToBusName name }
      else
        { st with nameToBusName := mapErase st.nameToBusName name }

/-- nameToCurrent[name] = m. -/
def setCurrent (st : RegistryState) (name : String) (m : Metadata) : RegistryState :=
  { st with nameToCurrent := mapInsert st.nameToCurrent name m }

/-- handleNewPlayer from dbus.go, reproduced faithfully: note that the
source reads sig.Body[0] for the name AND for both owner fields, so the
oldOwner == newOwner comparison is always true and the else (disconnect)
branch is unreachable. -/
def handleNewPlayer (env : BusEnv) (st : RegistryState) (sig : Signal) : HandlerOutcome :=
  if sig.Body.length != 3 then ⟨st, [], .err .ErrInvalidSignalBody⟩
  else
    let r0 := getString (sig.Body.getD 0 .other)
    let name := r0.1
    let nameOk := r0.2
    let r1 := getString (sig.Body.getD 0 .other)
    let newOwner := r1.1
    let newOk := r1.2
    let r2 := getString (sig.Body.getD 0 .other)
    let oldOwner := r2.1
    let oldOk := r2.2
    if !nameOk || !newOk || !oldOk then ⟨st, [], .err .ErrInvalidSignalBody⟩
    else if hasPre name "org.mpris.MediaPlayer2." then
      if oldOwner == newOwner then
        let st1 := (addPlayer env st name).1
        if isFilteredPlayer name then ⟨st1, [], .ok⟩
        else
          match env.getMetadata name with
          | none => ⟨st1, [], .err .ErrMetadataFailed⟩
          | some metadata => ⟨setCurrent st1 name metadata, [metadata], cbResult env metadata⟩
      else
        ⟨removePlayer st name, [], .ok⟩
    else ⟨st, [], .ok⟩

/-- handlePropertyChange from dbus.go, reproduced faithfully: note that the
length guard checks < 1 but the body is then indexed at 1, so a one-element
body is an out-of-range panic. -/
def handlePropertyChange (env : BusEnv) (st : RegistryState) (sig : Signal) : HandlerOutcome :=
  let bus := sig.Sender
  match mapLookup st.busNameToName bus with
  | none => ⟨st, [], .ok⟩
  | some name =>
    if isFilteredPlayer name then ⟨st, [], .ok⟩
    else if sig.Body.length < 1 then ⟨st, [], .err .ErrInvalidSignalBody⟩
    else
      match sig.Body[1]? with
      | none => ⟨st, [], .panicked⟩
      | some (DBusValue.dict changed) =>
          if (mapLookup changed "PlaybackStatus").isSome then ⟨st, [], .ok⟩
          else
            match mapLookup changed "Metadata" with
            | none => ⟨st, [], .err .ErrMetadataFailed⟩
            | some (DBusValue.dict metadata) =>
                let metaParsed := parseMetadata metadata
                match mapLookup st.nameToCurrent name with
                | none => ⟨setCurrent st name metaParsed, [metaParsed], cbResult env metaParsed⟩
                | some current =>
                    if current.IsSameTrack metaParsed then ⟨st, [], .ok⟩
                    else ⟨setCurrent st name metaParsed, [metaParsed], cbResult env metaParsed⟩
            | some _ => ⟨st, [], .err .ErrMetadataFailed⟩
      | some _ => ⟨st, [], .err .ErrInvalidSignalBody⟩

/-! ## Storage engine (StoreData and helpers) -/

/-- A row of the Album table. -/
structure AlbumRow where
  id : Nat
  title : String
deriving DecidableEq, Repr

/-- A row of the Track table. -/
structure TrackRow where
  id : Nat
  title : String
  trackId : String
  url : String
  album : Option Nat
deriving DecidableEq, Repr

/-- A row of the Person table. -/
structure PersonRow where
  id : Nat
  name : String
deriving DecidableEq, Repr

/-- A row of the Track_Person table. -/
structure TrackPersonRow where
  id : Nat
  track : Nat
  person : Nat
deriving DecidableEq, Repr

/-- A row of the TrackLog table. -/
structure TrackLogRow where
  id : Nat
  track : Nat
  timestamp : String
deriving DecidableEq, Repr

/-- The whole SQLite database. Rows are only ever appended. -/
structure DB where
  albums : List AlbumRow
  tracks : List TrackRow
  persons : List PersonRow
  trackPersons : List TrackPersonRow
  trackLogs : List TrackLogRow
deriving DecidableEq, Repr

/-- The empty database after schema creation. -/
def DB.empty : DB := ⟨[], [], [], [], []⟩

/-- The next INTEGER PRIMARY KEY the engine will assign: one more than the
largest id in use (SQLite assigns max rowid + 1; the first row gets 1). -/
def nextId (ids : List Nat) : Nat := ids.foldr max 0 + 1

/-- An open transaction: the database as this transaction sees it, plus a
count of the SQL statements executed so far (used for fault injection). -/
structure TxState where
  db : DB
  steps : Nat
deriving DecidableEq, Repr

/-- Errors surfaced by the storage layer: an injected driver error from the
database, or the ErrInvalidAlbumName invariant violation. -/
inductive DBErr where
| driver
| invalidAlbumName
deriving DecidableEq, Repr

/-- Execute one SQL statement: advance the step counter and report whether
the fault-injection oracle makes this statement fail. A failed statement
changes nothing. -/
def tick (failAt : Option Nat) (s : TxState) : TxState × Bool :=
  ({ s with steps := s.steps + 1 }, failAt == some s.steps)

/-- INSERT INTO Album (title) VALUES (?), returning LastInsertId. -/
def insAlbum (s : TxState) (title : String) : TxState × Nat :=
  let newId := nextId (s.db.albums.map AlbumRow.id)
  ({ s with db := { s.db with albums := s.db.albums ++ [⟨newId, title⟩] } }, newId)

/-- INSERT INTO Track (title, trackId, url, album), returning LastInsertId. -/
def insTrack (s : TxState) (title trackId url : String) (album : Option Nat) : TxState × Nat :=
  let newId := nextId (s.db.tracks.map TrackRow.id)
  ({ s with db := { s.db with tracks := s.db.tracks ++ [⟨newId, title, trackId, url, album⟩] } }, newId)

/-- INSERT INTO Person (name) VALUES (?), returning LastInsertId. -/
def insPerson (s : TxState) (name : String) : TxState × Nat :=
  let newId := nextId (s.db.persons.map PersonRow.id)
  ({ s with db := { s.db with persons := s.db.persons ++ [⟨newId, name⟩] } }, newId)

/-- INSERT INTO Track_Person (track, person) VALUES (?, ?). -/
def insTrackPerson (s : TxState) (track person : Nat) : TxState :=
  let newId := nextId (s.db.trackPersons.map TrackPersonRow.id)
  { s with db := { s.db with trackPersons := s.db.trackPersons ++ [⟨newId, track, person⟩] } }

/-- INSERT INTO TrackLog (track, timestamp) VALUES (?, ?). -/
def insTrackLog (s : TxState) (track : Nat) (timestamp : String) : TxState :=
  let newId := nextId (s.db.trackLogs.map TrackLogRow.id)
  { s with db := { s.db with trackLogs := s.db.trackLogs ++ [⟨newId, track, timestamp⟩] } }

/-- getAlbum from the storage source. Faithfully reproduced: the SELECT is
`SELECT id FROM Album WHERE id = ?` bound to the just-declared (zero) id
variable — NOT a lookup by the name parameter — so with every real id
positive the lookup never matches and a fresh row is always inserted. -/
def getAlbum (failAt : Option Nat) (s : TxState) (name : String) : TxState × Except DBErr Nat :=
  if name.length == 0 then (s, .error .invalidAlbumName)
  else
    let id0 : Nat := 0
    let (s1, f1) := tick failAt s
    if f1 then (s1, .error .driver)
    else
      match (s1.db.albums.find? (fun r => r.id == id0)).map AlbumRow.id with
      | some found => (s1, .ok found)
      | none =>
          let (s2, f2) := tick failAt s1
          if f2 then (s2, .error .driver)
          else
            let (s3, newId) := insAlbum s2 name
            (s3, .ok newId)

/-- addPerson from the storage source: get-or-create the Person by name,
then insert one Track_Person association row (no existing-link check). -/
def addPerson (failAt : Option Nat) (s : TxState) (trackId : Nat) (person : String) :
    TxState × Except DBErr Unit :=
  if person.length == 0 then (s, .ok ())
  else
    let (s1, f1) := tick failAt s
    if f1 then (s1, .error .driver)
    else
      match s1.db.persons.find? (fun r => r.name == person) with
      | none =>
          let (s2, f2) := tick failAt s1
          if f2 then (s2, .error .driver)
          else
            let (s3, personId) := insPerson s2 person
            let (s4, f4) := tick failAt s3
            if f4 then (s4, .error .driver)
            else (insTrackPerson s4 trackId personId, .ok ())
      | some r =>
          let (s2, f2) := tick failAt s1
          if f2 then (s2, .error .driver)
          else (insTrackPerson s2 trackId r.id, .ok ())

/-- The nested loops of insertPersons, flattened over the joined name list,
carrying the artSet of names already handled in this call. -/
def insertPersonsGo (failAt : Option Nat) (trackId : Nat) :
    TxState → List String → List String → TxState × Except DBErr Unit
| s, seen, [] => (s, .ok ())
| s, seen, person :: rest =>
    if seen.contains person then insertPersonsGo failAt trackId s seen rest
    else
      match addPerson failAt s trackId person with
      | (s1, .error e) => (s1, .error e)
      | (s1, .ok _) => insertPersonsGo failAt trackId s1 (person :: seen) rest

/-- insertPersons from the storage source: iterate albumArtist, artist and
composer lists in order, de-duplicating names within the call. -/
def insertPersons (failAt : Option Nat) (s : TxState) (trackId : Nat)
    (persons : List (List String)) : TxState × Except DBErr Unit :=
  insertPersonsGo failAt trackId s [] persons.flatten

/-- getTrack from the storage source: look up the Track by exact (url,
title); if found reuse its id unconditionally; otherwise create it (with
the album resolved first when the album name is non-empty) and insert the
person associations for the new row. -/
def getTrack (failAt : Option Nat) (s : TxState) (title trackId url album : String)
    (persons : List (List String)) : TxState × Except DBErr Nat :=
  let (s1, f1) := tick failAt s
  if f1 then (s1, .error .driver)
  else
    match s1.db.tracks.find? (fun r => r.url == url && r.title == title) with
    | some r => (s1, .ok r.id)
    | none =>
        if album.length > 0 then
          match getAlbum failAt s1 album with
          | (s2, .error e) => (s2, .error e)
          | (s2, .ok alb) =>
              let (s3, f3) := tick failAt s2
              if f3 then (s3, .error .driver)
              else
                let (s4, newId) := insTrack s3 title trackId url (some alb)
                match insertPersons failAt s4 newId persons with
                | (s5, .error e) => (s5, .error e)
                | (s5, .ok _) => (s5, .ok newId)
        else
          let (s3, f3) := tick failAt s1
          if f3 then (s3, .error .driver)
          else
            let (s4, newId) := insTrack s3 title trackId url none
            match insertPersons failAt s4 newId persons with
            | (s5, .error e) => (s5, .error e)
            | (s5, .ok _) => (s5, .ok newId)

/-- StoreData from the storage source. BeginTx, the TrackLog insert and the
final Commit each count as one fallible statement; every error path rolls
the transaction back, so the returned database is the original one. -/
def StoreData (failAt : Option Nat) (db : DB) (data : Metadata) (now : String) :
    DB × Except DBErr Unit :=
  if data.Title.length == 0 && data.Url.length == 0 then (db, .ok ())
  else
    let s0 : TxState := ⟨db, 0⟩
    let (s1, fb) := tick failAt s0
    if fb then (db, .error .driver)
    else
      match getTrack failAt s1 data.Title data.TrackId data.Url data.Album
              [data.AlbumArtist, data.Artist, data.Composer] with
      | (s2, .error e) => (db, .error e)
      | (s2, .ok trackIdNumber) =>
          let (s3, f3) := tick failAt s2
          if f3 then (db, .error .driver)
          else
            let s4 := insTrackLog s3 trackIdNumber now
            let (s5, fc) := tick failAt s4
            if fc then (db, .error .driver)
            else (s5.db, .ok ())

/-! ## Concrete fixtures for counterexamples and code-bug evaluations -/

/-- An environment whose bus calls all fail and whose callback reports nil. -/
def envNull : BusEnv := ⟨fun _ => none, fun _ => none, fun _ => none⟩

/-- A registry knowing the player org.mpris.MediaPlayer2.mpv at bus :1.7. -/
def stKnown7 : RegistryState :=
  ⟨[(":1.7", "org.mpris.MediaPlayer2.mpv")], [("org.mpris.MediaPlayer2.mpv", ":1.7")], []⟩

/-- A property-change signal from bus :1.7 whose body has exactly one element. -/
def sigOneElem : Signal :=
  ⟨":1.7", "org.freedesktop.DBus.Properties.PropertiesChanged",
    [DBusValue.str "org.mpris.MediaPlayer2.Player"]⟩

/-- A registry knowing the player org.mpris.MediaPlayer2.mpv at bus :1.5. -/
def stC1 : RegistryState :=
  ⟨[(":1.5", "org.mpris.MediaPlayer2.mpv")], [("org.mpris.MediaPlayer2.mpv", ":1.5")], []⟩

/-- The metadata snapshot the bus serves in the C1 scenario. -/
def mC1 : Metadata := { Url := "file:///a.mp3", Title := "Song A" }

/-- Environment for the C1 scenario: GetNameOwner answers :1.9, the
metadata fetch succeeds, the callback reports nil. -/
def envC1 : BusEnv := ⟨fun _ => some ":1.9", fun _ => some mC1, fun _ => none⟩

/-- A presence-change signal announcing a DISCONNECT of the mpv player:
prior owner ":1.5" (non-empty), new owner "" (empty). -/
def sigDisconnect : Signal :=
  ⟨"org.freedesktop.DBus", "org.freedesktop.DBus.NameOwnerChanged",
    [DBusValue.str "org.mpris.MediaPlayer2.mpv", DBusValue.str ":1.5", DBusValue.str ""]⟩

/-- C1: the presence handler, applied to a well-formed DISCONNECT signal
(prior owner ":1.5", new owner ""), takes the connect path: it re-registers
the player under the freshly queried owner, caches a metadata snapshot and
invokes the callback, instead of unregistering without a callback. This is
the copy-paste defect: all three body fields are read from index 0. -/
theorem handleNewPlayer_disconnect_treated_as_connect :
    handleNewPlayer envC1 stC1 sigDisconnect =
      ⟨⟨[(":1.5", "org.mpris.MediaPlayer2.mpv"), (":1.9", "org.mpris.MediaPlayer2.mpv")],
        [("org.mpris.MediaPlayer2.mpv", ":1.9")],
        [("org.mpris.MediaPlayer2.mpv", mC1)]⟩,
       [mC1], .ok⟩ := by
  rfl

/-- C7: a property-change signal from a known sender whose body has exactly
one element passes the len < 1 guard and then indexes Body[1]: an
out-of-range panic, not an ErrInvalidSignalBody return. -/
theorem handlePropertyChange_one_element_panics :
    handlePropertyChange envNull stKnown7 sigOneElem = ⟨stKnown7, [], .panicked⟩ := by
  rfl

/-- A database whose Album table already holds one row titled "X". -/
def dbOneAlbum : DB := ⟨[⟨1, "X"⟩], [], [], [], []⟩

/-- C8: getAlbum on a title that already exists does NOT return the
existing row's id: its SELECT is keyed on the uninitialized id variable
(0), never on the name, so it inserts a second row titled "X" and returns
the fresh id 2. -/
theorem getAlbum_duplicates_existing_title :
    (getAlbum none ⟨dbOneAlbum, 0⟩ "X").2 = Except.ok 2
    ∧ ((getAlbum none ⟨dbOneAlbum, 0⟩ "X").1.db.albums.map AlbumRow.title) = ["X", "X"] := by
  exact ⟨rfl, rfl⟩

/-- A registry knowing org.mpris.MediaPlayer2.vlc at bus :1.4 with no
cached last-track. -/
def stC5 : RegistryState :=
  ⟨[(":1.4", "org.mpris.MediaPlayer2.vlc")], [("org.mpris.MediaPlayer2.vlc", ":1.4")], []⟩

/-- A decodable metadata map for the C5 scenario. -/
def mdC5 : List (String × DBusValue) :=
  [("xesam:title", DBusValue.str "Song B"), ("xesam:url", DBusValue.str "file:///b.mp3")]

/-- A changed-property map carrying BOTH a PlaybackStatus entry and a
decodable Metadata entry. -/
def sigC5Changed : List (String × DBusValue) :=
  [("PlaybackStatus", DBusValue.str "Playing"), ("Metadata", DBusValue.dict mdC5)]

/-- A property-change whose changed-property map is sigC5Changed. -/
def sigC5 : Signal :=
  ⟨":1.4", "org.freedesktop.DBus.Properties.PropertiesChanged",
    [DBusValue.str "org.mpris.MediaPlayer2.Player", DBusValue.dict sigC5Changed]⟩

/-- C5: when a metadata property is present ALONGSIDE a playback-status
property, the handler does not decode it and invokes no callback: it
returns nil immediately on seeing PlaybackStatus, although no last-track
is cached and the duplicate check would have invoked the callback. -/
theorem handlePropertyChange_status_shadows_metadata :
    handlePropertyChange envNull stC5 sigC5 = ⟨stC5, [], .ok⟩
    ∧ mapLookup sigC5Changed "Metadata" = some (DBusValue.dict mdC5) := by
  exact ⟨rfl, rfl⟩

/-- The cached last-track in the C6 scenario: same url and title as the
incoming record, different album. -/
def mC6old : Metadata := { Url := "file:///c.mp3", Title := "Song C", Album := "Album 1" }

/-- Registry for the C6 scenario: the player has mC6old cached. -/
def stC6 : RegistryState :=
  ⟨[(":1.9", "org.mpris.MediaPlayer2.foo")], [("org.mpris.MediaPlayer2.foo", ":1.9")],
   [("org.mpris.MediaPlayer2.foo", mC6old)]⟩

/-- Metadata map for C6: decodes to the same url and title as the cache
but a different album. -/
def mdC6 : List (String × DBusValue) :=
  [("xesam:url", DBusValue.str "file:///c.mp3"), ("xesam:title", DBusValue.str "Song C"),
   ("xesam:album", DBusValue.str "Album 2")]

/-- Property-change signal for the C6 scenario. -/
def sigC6 : Signal :=
  ⟨":1.9", "org.freedesktop.DBus.Properties.PropertiesChanged",
    [DBusValue.str "org.mpris.MediaPlayer2.Player",
     DBusValue.dict [("Metadata", DBusValue.dict mdC6)]]⟩

/-- C6: when the duplicate filter judges the newly decoded record the same
track as the cache entry (same url/title, different album), the cache is
NOT updated: the registry still holds the old record, which differs from
the newly decoded one. -/
theorem handlePropertyChange_keeps_stale_cache :
    handlePropertyChange envNull stC6 sigC6 = ⟨stC6, [], .ok⟩
    ∧ parseMetadata mdC6 ≠ mC6old := by
  refine ⟨rfl, ?_⟩
  decide

/-! ## Handler theorems -/

/-- C10: a presence-change signal with a well-formed three-string body
whose changed name lacks the media-player name prelude is handled without
error, without any callback, and leaves the registry state (both maps and
every cached last-track) unchanged. -/
theorem handleNewPlayer_nonplayer_noop
    (env : BusEnv) (st : RegistryState) (sender signame s1 s2 s3 : String)
    (h : hasPre s1 "org.mpris.MediaPlayer2." = false) :
    handleNewPlayer env st
      ⟨sender, signame, [DBusValue.str s1, DBusValue.str s2, DBusValue.str s3]⟩
      = ⟨st, [], .ok⟩ := by
  simp [handleNewPlayer, getString, h]

/-- Witness for the C10 theorem at a concrete non-player name. -/
theorem handleNewPlayer_nonplayer_noop_witness :
    handleNewPlayer envNull RegistryState.empty
      ⟨"org.freedesktop.DBus", "sig", [DBusValue.str "com.example.Foo", DBusValue.str "", DBusValue.str ":1.2"]⟩
      = ⟨RegistryState.empty, [], .ok⟩ :=
  handleNewPlayer_nonplayer_noop envNull RegistryState.empty "org.freedesktop.DBus" "sig"
    "com.example.Foo" "" ":1.2" (by decide)

/-- C2: for a property-change signal from a registered, unfiltered player
whose changed-property map carries no playback-status key and a decodable
metadata map: when the cached last-track shares both url and title with the
decoded record the callback is not invoked (whatever the other fields are);
when no last-track is cached, or url and title do not both match, the
callback is invoked exactly once with the decoded record and the cache is
updated to it. -/
theorem handlePropertyChange_duplicate_suppression
    (env : BusEnv) (st : RegistryState) (sender signame name : String)
    (b0 : DBusValue) (changed md : List (String × DBusValue)) (rest : List DBusValue)
    (m : Metadata)
    (hreg : mapLookup st.busNameToName sender = some name)
    (hfil : isFilteredPlayer name = false)
    (hps : mapLookup changed "PlaybackStatus" = none)
    (hmd : mapLookup changed "Metadata" = some (DBusValue.dict md))
    (hm : parseMetadata md = m) :
    (∀ current, mapLookup st.nameToCurrent name = some current →
      ((current.Url = m.Url ∧ current.Title = m.Title) →
        handlePropertyChange env st ⟨sender, signame, b0 :: DBusValue.dict changed :: rest⟩
          = ⟨st, [], .ok⟩)
      ∧ (¬(current.Url = m.Url ∧ current.Title = m.Title) →
        handlePropertyChange env st ⟨sender, signame, b0 :: DBusValue.dict changed :: rest⟩
          = ⟨setCurrent st name m, [m], cbResult env m⟩))
    ∧ (mapLookup st.nameToCurrent name = none →
        handlePropertyChange env st ⟨sender, signame, b0 :: DBusValue.dict changed :: rest⟩
          = ⟨setCurrent st name m, [m], cbResult env m⟩) := by
  refine ⟨?_, ?_⟩
  · intro current hcur
    refine ⟨?_, ?_⟩
    · rintro ⟨h1, h2⟩
      have hsame : current.IsSameTrack m = true := by
        simp [Metadata.IsSameTrack, h1, h2]
      simp [handlePropertyChange, hreg, hfil, hps, hmd, hcur, hm, hsame]
    · intro hne
      have hsame : current.IsSameTrack m = false := by
        rcases not_and_or.mp hne with h1 | h1
        · simp [Metadata.IsSameTrack, beq_eq_false_iff_ne.mpr h1]
        · simp [Metadata.IsSameTrack, beq_eq_false_iff_ne.mpr h1]
      simp [handlePropertyChange, hreg, hfil, hps, hmd, hcur, hm, hsame]
  · intro hcur
    simp [handlePropertyChange, hreg, hfil, hps, hmd, hcur, hm]

/-- Witness for the C2 theorem: same url and title, different album, so
the callback is suppressed. -/
theorem handlePropertyChange_duplicate_suppression_witness :
    handlePropertyChange envNull stC6 sigC6 = ⟨stC6, [], HandlerResult.ok⟩ :=
  ((handlePropertyChange_duplicate_suppression envNull stC6 ":1.9"
      "org.freedesktop.DBus.Properties.PropertiesChanged" "org.mpris.MediaPlayer2.foo"
      (DBusValue.str "org.mpris.MediaPlayer2.Player") [("Metadata", DBusValue.dict mdC6)] mdC6 []
      { Url := "file:///c.mp3", Title := "Song C", Album := "Album 2" }
      rfl rfl rfl rfl rfl).1 mC6old rfl).1 ⟨rfl, rfl⟩

/-- C5 (amended): for a property-change signal from a registered,
unfiltered player, the presence of a playback-status key among the changed
properties makes the handler ignore the notification entirely — even when
a metadata property is present alongside it; a metadata map is decoded and
the duplicate check run only when no playback-status key is present. -/
theorem handlePropertyChange_status_priority
    (env : BusEnv) (st : RegistryState) (sender signame name : String)
    (b0 : DBusValue) (changed : List (String × DBusValue)) (rest : List DBusValue)
    (hreg : mapLookup st.busNameToName sender = some name)
    (hfil : isFilteredPlayer name = false) :
    ((mapLookup changed "PlaybackStatus").isSome = true →
      handlePropertyChange env st ⟨sender, signame, b0 :: DBusValue.dict changed :: rest⟩
        = ⟨st, [], .ok⟩)
    ∧ (mapLookup changed "PlaybackStatus" = none →
       ∀ md, mapLookup changed "Metadata" = some (DBusValue.dict md) →
        (mapLookup st.nameToCurrent name = none →
          handlePropertyChange env st ⟨sender, signame, b0 :: DBusValue.dict changed :: rest⟩
            = ⟨setCurrent st name (parseMetadata md), [parseMetadata md],
               cbResult env (parseMetadata md)⟩)
        ∧ (∀ current, mapLookup st.nameToCurrent name = some current →
            handlePropertyChange env st ⟨sender, signame, b0 :: DBusValue.dict changed :: rest⟩
              = if current.IsSameTrack (parseMetadata md) then ⟨st, [], .ok⟩
                else ⟨setCurrent st name (parseMetadata md), [parseMetadata md],
                      cbResult env (parseMetadata md)⟩)) := by
  refine ⟨?_, ?_⟩
  · intro hps
    simp [handlePropertyChange, hreg, hfil, hps]
  · intro hps md hmd
    refine ⟨?_, ?_⟩
    · intro hcur
      simp [handlePropertyChange, hreg, hfil, hps, hmd, hcur]
    · intro current hcur
      by_cases hsame : current.IsSameTrack (parseMetadata md) = true
      · simp [handlePropertyChange, hreg, hfil, hps, hmd, hcur, hsame]
      · simp [handlePropertyChange, hreg, hfil, hps, hmd, hcur,
              Bool.of_not_eq_true hsame]

/-- Witness for the amended C5 theorem at the fixture where both
PlaybackStatus and Metadata are present. -/
theorem handlePropertyChange_status_priority_witness :
    handlePropertyChange envNull stC5 sigC5 = ⟨stC5, [], HandlerResult.ok⟩ :=
  (handlePropertyChange_status_priority envNull stC5 ":1.4"
      "org.freedesktop.DBus.Properties.PropertiesChanged" "org.mpris.MediaPlayer2.vlc"
      (DBusValue.str "org.mpris.MediaPlayer2.Player") sigC5Changed []
      rfl rfl).1 rfl

/-- C6 (amended): after a property-change whose metadata map decodes, the
cache entry for the player is set to the decoded record exactly when no
last-track was cached or the duplicate filter judges the record different
from the cached one; when the filter judges them the same, the cache keeps
the previously cached record. -/
theorem handlePropertyChange_cache_update
    (env : BusEnv) (st : RegistryState) (sender signame name : String)
    (b0 : DBusValue) (changed md : List (String × DBusValue)) (rest : List DBusValue)
    (m : Metadata)
    (hreg : mapLookup st.busNameToName sender = some name)
    (hfil : isFilteredPlayer name = false)
    (hps : mapLookup changed "PlaybackStatus" = none)
    (hmd : mapLookup changed "Metadata" = some (DBusValue.dict md))
    (hm : parseMetadata md = m) :
    (mapLookup st.nameToCurrent name = none →
      (handlePropertyChange env st ⟨sender, signame, b0 :: DBusValue.dict changed :: rest⟩).state
        = setCurrent st name m)
    ∧ (∀ current, mapLookup st.nameToCurrent name = some current →
        (current.IsSameTrack m = false →
          (handlePropertyChange env st ⟨sender, signame, b0 :: DBusValue.dict changed :: rest⟩).state
            = setCurrent st name m)
        ∧ (current.IsSameTrack m = true →
          (handlePropertyChange env st ⟨sender, signame, b0 :: DBusValue.dict changed :: rest⟩).state
            = st)) := by
  refine ⟨?_, ?_⟩
  · intro hcur
    simp [handlePropertyChange, hreg, hfil, hps, hmd, hcur, hm]
  · intro current hcur
    refine ⟨?_, ?_⟩
    · intro hsame
      simp [handlePropertyChange, hreg, hfil, hps, hmd, hcur, hm, hsame]
    · intro hsame
      simp [handlePropertyChange, hreg, hfil, hps, hmd, hcur, hm, hsame]

/-- Witness for the amended C6 theorem: filter judges the records the
same, the stale cache entry is retained. -/
theorem handlePropertyChange_cache_update_witness :
    (handlePropertyChange envNull stC6 sigC6).state = stC6 :=
  ((handlePropertyChange_cache_update envNull stC6 ":1.9"
      "org.freedesktop.DBus.Properties.PropertiesChanged" "org.mpris.MediaPlayer2.foo"
      (DBusValue.str "org.mpris.MediaPlayer2.Player") [("Metadata", DBusValue.dict mdC6)] mdC6 []
      { Url := "file:///c.mp3", Title := "Song C", Album := "Album 2" }
      rfl rfl rfl rfl rfl).2 mC6old rfl).2 rfl

/-! ## Storage lemmas -/

/-- find? over an append whose first part has no match. -/
theorem find_append_of_none {α : Type} (p : α → Bool) (l1 l2 : List α)
    (h : l1.find? p = none) : (l1 ++ l2).find? p = l2.find? p := by
  induction l1 with
  | nil => simp
  | cons a t ih =>
      cases hpa : p a with
      | false =>
          rw [List.find?_cons_of_neg _ (by simp [hpa])] at h
          rw [List.cons_append, List.find?_cons_of_neg _ (by simp [hpa])]
          exact ih h
      | true =>
          rw [List.find?_cons_of_pos _ hpa] at h
          cases h

/-- A string has length zero exactly when it is empty. -/
theorem strEmpty (s : String) : s.length = 0 ↔ s = "" := by
  cases s with
  | mk data =>
    cases data with
    | nil => simp [String.length]
    | cons c cs =>
        simp only [String.length]
        constructor
        · intro h
          simp at h
        · intro h
          have h2 : (String.mk (c :: cs)).data = ("" : String).data := by rw [h]
          simp at h2

/-- The StoreData guard is false exactly for a non-empty title or url. -/
theorem guardFalse (t u : String) (h : ¬(t = "" ∧ u = "")) :
    (t.length == 0 && u.length == 0) = false := by
  rcases not_and_or.mp h with h1 | h1 <;> simp [strEmpty, h1]

/-- The no-fault oracle never fails a statement. -/
theorem none_beq_some (k : Nat) : ((none : Option Nat) == some k) = false := rfl

/-- getAlbum never touches the Track, Person, Track_Person or TrackLog
tables, whatever the fault-injection oracle does. -/
theorem getAlbum_frame (f : Option Nat) (s : TxState) (name : String) :
    ((getAlbum f s name).1).db.tracks = s.db.tracks
    ∧ ((getAlbum f s name).1).db.persons = s.db.persons
    ∧ ((getAlbum f s name).1).db.trackPersons = s.db.trackPersons
    ∧ ((getAlbum f s name).1).db.trackLogs = s.db.trackLogs := by
  unfold getAlbum
  dsimp only [tick, insAlbum]
  refine ⟨?_, ?_, ?_, ?_⟩ <;> (repeat' split) <;> rfl

/-- getAlbum state preservation, keyed on a result equation. -/
theorem getAlbum_eq_frame {f : Option Nat} {s : TxState} {name : String}
    {s2 : TxState} {r : Except DBErr Nat} (h : getAlbum f s name = (s2, r)) :
    s2.db.tracks = s.db.tracks ∧ s2.db.persons = s.db.persons
    ∧ s2.db.trackPersons = s.db.trackPersons ∧ s2.db.trackLogs = s.db.trackLogs := by
  have hfr := getAlbum_frame f s name
  rw [h] at hfr
  exact hfr

/-- addPerson never touches the Album, Track or TrackLog tables. -/
theorem addPerson_frame (f : Option Nat) (s : TxState) (tid : Nat) (p : String) :
    ((addPerson f s tid p).1).db.tracks = s.db.tracks
    ∧ ((addPerson f s tid p).1).db.albums = s.db.albums
    ∧ ((addPerson f s tid p).1).db.trackLogs = s.db.trackLogs := by
  unfold addPerson
  dsimp only [tick, insPerson, insTrackPerson]
  refine ⟨?_, ?_, ?_⟩ <;> (repeat' split) <;> rfl

/-- The insertPersons loop never touches Album, Track or TrackLog. -/
theorem insertPersonsGo_frame (f : Option Nat) (tid : Nat) :
    ∀ (l : List String) (s : TxState) (seen : List String),
    ((insertPersonsGo f tid s seen l).1).db.tracks = s.db.tracks
    ∧ ((insertPersonsGo f tid s seen l).1).db.albums = s.db.albums
    ∧ ((insertPersonsGo f tid s seen l).1).db.trackLogs = s.db.trackLogs := by
  intro l
  induction l with
  | nil => intro s seen; simp [insertPersonsGo]
  | cons person rest ih =>
      intro s seen
      unfold insertPersonsGo
      split
      · exact ih s seen
      · rcases hap : addPerson f s tid person with ⟨s1, r⟩
        have hfr := addPerson_frame f s tid person
        rw [hap] at hfr
        cases r with
        | error e => simpa using hfr
        | ok u =>
            have h2 := ih s1 (person :: seen)
            exact ⟨by rw [h2.1, hfr.1], by rw [h2.2.1, hfr.2.1], by rw [h2.2.2, hfr.2.2]⟩

/-- insertPersons never touches Album, Track or TrackLog. -/
theorem insertPersons_eq_frame {f : Option Nat} {s : TxState} {tid : Nat}
    {persons : List (List String)} {s5 : TxState} {r : Except DBErr Unit}
    (h : insertPersons f s tid persons = (s5, r)) :
    s5.db.tracks = s.db.tracks ∧ s5.db.albums = s.db.albums
    ∧ s5.db.trackLogs = s.db.trackLogs := by
  have hfr := insertPersonsGo_frame f tid persons.flatten s []
  unfold insertPersons at h
  rw [h] at hfr
  exact hfr

/-- getTrack never touches the TrackLog table. -/
theorem getTrack_trackLogs (f : Option Nat) (s : TxState) (title trackId url album : String)
    (persons : List (List String)) :
    ((getTrack f s title trackId url album persons).1).db.trackLogs = s.db.trackLogs := by
  unfold getTrack
  dsimp only [tick]
  split
  · rfl
  · split
    · rfl
    · split
      · split
        · rename_i s2 e heq
          exact (getAlbum_eq_frame heq).2.2.2
        · rename_i s2 alb heq
          split
          · exact (getAlbum_eq_frame heq).2.2.2
          · split
            · rename_i s5 e2 heq2
              exact ((insertPersons_eq_frame heq2).2.2).trans ((getAlbum_eq_frame heq).2.2.2)
            · rename_i s5 u heq2
              exact ((insertPersons_eq_frame heq2).2.2).trans ((getAlbum_eq_frame heq).2.2.2)
      · split
        · rfl
        · split
          · rename_i s5 e2 heq2
            exact (insertPersons_eq_frame heq2).2.2
          · rename_i s5 u heq2
            exact (insertPersons_eq_frame heq2).2.2

/-- A positive Nat is not beq-zero. -/
theorem pos_beq_zero_false {n : Nat} (h : n > 0) : (n == 0) = false := by
  cases n with
  | zero => exact absurd h (lt_irrefl 0)
  | succ k => rfl

/-- With no fault injected, addPerson succeeds. -/
theorem addPerson_none_ok (s : TxState) (tid : Nat) (p : String) :
    (addPerson none s tid p).2 = Except.ok () := by
  unfold addPerson
  dsimp only [tick]
  simp only [none_beq_some, Bool.false_eq_true, if_false]
  split
  · rfl
  · split <;> rfl

/-- With no fault injected, the insertPersons loop succeeds. -/
theorem insertPersonsGo_none_ok (tid : Nat) :
    ∀ (l : List String) (s : TxState) (seen : List String),
    (insertPersonsGo none tid s seen l).2 = Except.ok () := by
  intro l
  induction l with
  | nil => intro s seen; rfl
  | cons person rest ih =>
      intro s seen
      unfold insertPersonsGo
      split
      · exact ih s seen
      · rcases hap : addPerson none s tid person with ⟨s1, r⟩
        cases r with
        | error e =>
            have hok := addPerson_none_ok s tid person
            rw [hap] at hok
            simp at hok
        | ok u => exact ih s1 (person :: seen)

/-- With no fault injected, insertPersons succeeds. -/
theorem insertPersons_none_ok (s : TxState) (tid : Nat) (persons : List (List String)) :
    (insertPersons none s tid persons).2 = Except.ok () :=
  insertPersonsGo_none_ok tid persons.flatten s []

/-- With no fault injected and a non-empty name, getAlbum succeeds. -/
theorem getAlbum_none_ok (s : TxState) (name : String) (h : (name.length == 0) = false) :
    ∃ a, (getAlbum none s name).2 = Except.ok a := by
  unfold getAlbum
  dsimp only [tick]
  simp only [h, none_beq_some, Bool.false_eq_true, if_false]
  split <;> exact ⟨_, rfl⟩

/-- getTrack result preserves the TrackLog table, keyed form. -/
theorem getTrack_eq_trackLogs {f : Option Nat} {s : TxState}
    {title trackId url album : String} {persons : List (List String)}
    {s2 : TxState} {r : Except DBErr Nat}
    (h : getTrack f s title trackId url album persons = (s2, r)) :
    s2.db.trackLogs = s.db.trackLogs := by
  have hfr := getTrack_trackLogs f s title trackId url album persons
  rw [h] at hfr
  exact hfr

/-- With no fault injected and no Track row matching (url, title), getTrack
creates exactly one new Track row carrying the given title, trackId and
url, appends it to the Track table, and returns its id. -/
theorem getTrack_none_created (s : TxState) (title trackId url album : String)
    (persons : List (List String))
    (hnone : s.db.tracks.find? (fun r => r.url == url && r.title == title) = none) :
    ∃ R : TrackRow, R.title = title ∧ R.url = url ∧ R.trackId = trackId
      ∧ ((getTrack none s title trackId url album persons).1).db.tracks = s.db.tracks ++ [R]
      ∧ (getTrack none s title trackId url album persons).2 = Except.ok R.id := by
  unfold getTrack
  dsimp only [tick]
  simp only [none_beq_some, Bool.false_eq_true, if_false, hnone]
  split
  · rename_i halb
    split
    · rename_i s2 e heq
      obtain ⟨a, ha⟩ := getAlbum_none_ok { db := s.db, steps := s.steps + 1 } album
        (pos_beq_zero_false halb)
      rw [heq] at ha
      simp at ha
    · rename_i s2 alb heq
      split
      · rename_i s5 e2 heq2
        have hok := insertPersons_none_ok
          (insTrack { db := s2.db, steps := s2.steps + 1 } title trackId url (some alb)).1
          (insTrack { db := s2.db, steps := s2.steps + 1 } title trackId url (some alb)).2 persons
        rw [heq2] at hok
        simp at hok
      · rename_i s5 u heq2
        refine ⟨⟨nextId (s2.db.tracks.map TrackRow.id), title, trackId, url, some alb⟩,
          rfl, rfl, rfl, ?_, ?_⟩
        · have h1 := (insertPersons_eq_frame heq2).1
          have h2 := (getAlbum_eq_frame heq).1
          dsimp only
          rw [h1]
          dsimp only [insTrack]
          rw [h2]
        · rfl
  · rename_i halb
    split
    · rename_i s5 e2 heq2
      have hok := insertPersons_none_ok
        (insTrack { db := s.db, steps := s.steps + 1 + 1 } title trackId url none).1
        (insTrack { db := s.db, steps := s.steps + 1 + 1 } title trackId url none).2 persons
      rw [heq2] at hok
      simp at hok
    · rename_i s5 u heq2
      refine ⟨⟨nextId (s.db.tracks.map TrackRow.id), title, trackId, url, none⟩,
        rfl, rfl, rfl, ?_, ?_⟩
      · have h1 := (insertPersons_eq_frame heq2).1
        dsimp only
        rw [h1]
        rfl
      · rfl

/-- With no fault injected and an existing Track row matching (url, title),
StoreData only appends one TrackLog row referencing the existing id: every
other table, and the matched row itself, is untouched. -/
theorem StoreData_found (db : DB) (data : Metadata) (now : String) (R : TrackRow)
    (hg : (data.Title.length == 0 && data.Url.length == 0) = false)
    (hfound : db.tracks.find? (fun r => r.url == data.Url && r.title == data.Title) = some R) :
    StoreData none db data now
      = ({ db with trackLogs :=
            db.trackLogs ++ [⟨nextId (db.trackLogs.map TrackLogRow.id), R.id, now⟩] },
         Except.ok ()) := by
  unfold StoreData getTrack
  dsimp only [tick]
  simp only [hg, none_beq_some, Bool.false_eq_true, if_false, hfound, insTrackLog]

/-- With no fault injected and no Track row matching (url, title),
StoreData succeeds and appends exactly one new Track row carrying the
record's url and title. -/
theorem StoreData_fresh (db : DB) (data : Metadata) (now : String)
    (hg : (data.Title.length == 0 && data.Url.length == 0) = false)
    (hnew : db.tracks.find? (fun r => r.url == data.Url && r.title == data.Title) = none) :
    ∃ R : TrackRow, R.url = data.Url ∧ R.title = data.Title ∧ R.trackId = data.TrackId
      ∧ (StoreData none db data now).2 = Except.ok ()
      ∧ ((StoreData none db data now).1).tracks = db.tracks ++ [R] := by
  obtain ⟨R, hRt, hRu, hRi, hRtracks, hRres⟩ :=
    getTrack_none_created { db := db, steps := 0 + 1 } data.Title data.TrackId data.Url data.Album
      [data.AlbumArtist, data.Artist, data.Composer] hnew
  refine ⟨R, hRu, hRt, hRi, ?_, ?_⟩
  · unfold StoreData
    dsimp only [tick]
    simp only [hg, none_beq_some, Bool.false_eq_true, if_false]
    split
    · rename_i s2 e heq
      rw [heq] at hRres
      simp at hRres
    · rfl
  · unfold StoreData
    dsimp only [tick]
    simp only [hg, none_beq_some, Bool.false_eq_true, if_false]
    split
    · rename_i s2 e heq
      rw [heq] at hRres
      simp at hRres
    · rename_i s2 tid heq
      rw [heq] at hRtracks
      dsimp only [insTrackLog]
      exact hRtracks

/-! ## Claim theorems over the storage engine -/

/-- C3: StoreData is atomic. For every record with a non-empty title or
url and every fault-injection choice, either some step fails, the
transaction rolls back and the returned database is exactly the original
one (no Track, Album, Person, TrackPerson or TrackLog row from the call is
visible), or every step succeeds, the transaction commits, and exactly one
new play-log row is visible. -/
theorem StoreData_atomic (f : Option Nat) (db : DB) (data : Metadata) (now : String)
    (h : ¬(data.Title = "" ∧ data.Url = "")) :
    (∃ e, StoreData f db data now = (db, Except.error e))
    ∨ ((StoreData f db data now).2 = Except.ok ()
        ∧ ((StoreData f db data now).1).trackLogs.length = db.trackLogs.length + 1) := by
  have hg := guardFalse data.Title data.Url h
  unfold StoreData
  dsimp only [tick]
  simp only [hg, Bool.false_eq_true, if_false]
  split
  · left
    exact ⟨DBErr.driver, rfl⟩
  · split
    · rename_i s2 e heq
      left
      exact ⟨e, rfl⟩
    · rename_i s2 tid heq
      split
      · left
        exact ⟨DBErr.driver, rfl⟩
      · split
        · left
          exact ⟨DBErr.driver, rfl⟩
        · right
          refine ⟨rfl, ?_⟩
          have hlog := getTrack_eq_trackLogs heq
          dsimp only [insTrackLog]
          simp [hlog]

/-- Witness for the C3 theorem: injecting a fault into the very first SQL
statement of the transaction rolls everything back. -/
theorem StoreData_atomic_witness :
    (∃ e, StoreData (some 1) DB.empty { Title := "t", Url := "u", Artist := ["A"] } "now"
        = (DB.empty, Except.error e))
    ∨ ((StoreData (some 1) DB.empty { Title := "t", Url := "u", Artist := ["A"] } "now").2
          = Except.ok ()
        ∧ ((StoreData (some 1) DB.empty { Title := "t", Url := "u", Artist := ["A"] } "now").1).trackLogs.length
          = DB.empty.trackLogs.length + 1) :=
  StoreData_atomic (some 1) DB.empty { Title := "t", Url := "u", Artist := ["A"] } "now" (by decide)

/-- C4: track resolution is idempotent on (url, title). Starting from a
database with no Track row for (url, title), a first store creates exactly
one row R; a second store with the same url and title (whatever its album
or external track id) resolves to the same id R.id, succeeds, and leaves
the Track table — in particular R's stored album reference and
externalTrackId — exactly as the first store wrote it. -/
theorem StoreData_idempotent_resolution
    (db : DB) (data1 data2 : Metadata) (now1 now2 : String)
    (hurl : data2.Url = data1.Url) (htitle : data2.Title = data1.Title)
    (hne : ¬(data1.Title = "" ∧ data1.Url = ""))
    (hnew : db.tracks.find? (fun r => r.url == data1.Url && r.title == data1.Title) = none) :
    ∃ R : TrackRow, R.url = data1.Url ∧ R.title = data1.Title
      ∧ (StoreData none db data1 now1).2 = Except.ok ()
      ∧ ((StoreData none db data1 now1).1).tracks = db.tracks ++ [R]
      ∧ (getTrack none ⟨(StoreData none db data1 now1).1, 0⟩ data2.Title data2.TrackId data2.Url
          data2.Album [data2.AlbumArtist, data2.Artist, data2.Composer]).2 = Except.ok R.id
      ∧ (StoreData none (StoreData none db data1 now1).1 data2 now2).2 = Except.ok ()
      ∧ ((StoreData none (StoreData none db data1 now1).1 data2 now2).1).tracks
          = db.tracks ++ [R] := by
  have hg1 := guardFalse data1.Title data1.Url hne
  obtain ⟨R, hRu, hRt, hRi, hres1, htr1⟩ := StoreData_fresh db data1 now1 hg1 hnew
  have hpR : (fun r => r.url == data2.Url && r.title == data2.Title) R = true := by
    simp [hRu, hRt, hurl, htitle]
  have hfound2 : ((StoreData none db data1 now1).1).tracks.find?
      (fun r => r.url == data2.Url && r.title == data2.Title) = some R := by
    rw [htr1, hurl, htitle]
    rw [find_append_of_none _ _ _ hnew]
    rw [show data1.Url = data2.Url from hurl.symm, show data1.Title = data2.Title from htitle.symm]
    exact List.find?_cons_of_pos _ hpR
  have hne2 : ¬(data2.Title = "" ∧ data2.Url = "") := by
    rw [hurl, htitle]
    exact hne
  have hg2 := guardFalse data2.Title data2.Url hne2
  refine ⟨R, hRu, hRt, hres1, htr1, ?_, ?_, ?_⟩
  · unfold getTrack
    dsimp only [tick]
    simp only [none_beq_some, Bool.false_eq_true, if_false]
    rw [show ({ db := (StoreData none db data1 now1).1, steps := 0 } : TxState).db.tracks
          = ((StoreData none db data1 now1).1).tracks from rfl]
    rw [hfound2]
  · rw [StoreData_found (StoreData none db data1 now1).1 data2 now2 R hg2 hfound2]
  · rw [StoreData_found (StoreData none db data1 now1).1 data2 now2 R hg2 hfound2]
    exact htr1

/-- Witness for the C4 theorem at concrete records sharing (url, title)
but differing in album and external track id. -/
theorem StoreData_idempotent_resolution_witness :
    ∃ R : TrackRow,
      R.url = ({ Title := "t", Url := "u", Album := "a", Artist := ["A"] } : Metadata).Url
      ∧ R.title = ({ Title := "t", Url := "u", Album := "a", Artist := ["A"] } : Metadata).Title
      ∧ (StoreData none DB.empty { Title := "t", Url := "u", Album := "a", Artist := ["A"] } "n1").2
          = Except.ok ()
      ∧ ((StoreData none DB.empty { Title := "t", Url := "u", Album := "a", Artist := ["A"] } "n1").1).tracks
          = DB.empty.tracks ++ [R]
      ∧ (getTrack none
          ⟨(StoreData none DB.empty { Title := "t", Url := "u", Album := "a", Artist := ["A"] } "n1").1, 0⟩
          ({ Title := "t", Url := "u", Album := "b", TrackId := "x2" } : Metadata).Title
          ({ Title := "t", Url := "u", Album := "b", TrackId := "x2" } : Metadata).TrackId
          ({ Title := "t", Url := "u", Album := "b", TrackId := "x2" } : Metadata).Url
          ({ Title := "t", Url := "u", Album := "b", TrackId := "x2" } : Metadata).Album
          [({ Title := "t", Url := "u", Album := "b", TrackId := "x2" } : Metadata).AlbumArtist,
           ({ Title := "t", Url := "u", Album := "b", TrackId := "x2" } : Metadata).Artist,
           ({ Title := "t", Url := "u", Album := "b", TrackId := "x2" } : Metadata).Composer]).2
          = Except.ok R.id
      ∧ (StoreData none
          (StoreData none DB.empty { Title := "t", Url := "u", Album := "a", Artist := ["A"] } "n1").1
          { Title := "t", Url := "u", Album := "b", TrackId := "x2" } "n2").2 = Except.ok ()
      ∧ ((StoreData none
          (StoreData none DB.empty { Title := "t", Url := "u", Album := "a", Artist := ["A"] } "n1").1
          { Title := "t", Url := "u", Album := "b", TrackId := "x2" } "n2").1).tracks
          = DB.empty.tracks ++ [R] :=
  StoreData_idempotent_resolution DB.empty
    { Title := "t", Url := "u", Album := "a", Artist := ["A"] }
    { Title := "t", Url := "u", Album := "b", TrackId := "x2" } "n1" "n2"
    rfl rfl (by decide) rfl

/-- A database already holding the Track row (1, "t", "", "u", no album). -/
def dbOneTrack : DB := ⟨[], [⟨1, "t", "", "u", none⟩], [], [], []⟩

/-- A record crediting one artist whose (url, title) matches the existing
Track row of dbOneTrack. -/
def dataRepeat : Metadata := { Title := "t", Url := "u", Artist := ["A"] }

/-- C9 counterexample: a successful storage call whose (url, title)
resolves to an existing Track row and which credits the non-empty person
name "A" inserts NO TrackPerson association row at all — the claim's fresh
association row per credited name does not happen. -/
theorem StoreData_repeat_play_counterexample :
    dbOneTrack.tracks.find?
      (fun r => r.url == dataRepeat.Url && r.title == dataRepeat.Title)
      = some ⟨1, "t", "", "u", none⟩
    ∧ (StoreData none dbOneTrack dataRepeat "ts").2 = Except.ok ()
    ∧ ((StoreData none dbOneTrack dataRepeat "ts").1).trackPersons = []
    ∧ ((StoreData none dbOneTrack dataRepeat "ts").1).persons = [] := by
  exact ⟨rfl, rfl, rfl, rfl⟩

/-- C9 (amended): TrackPerson association rows are inserted only by the
call that creates the Track row. A successful storage call whose (url,
title) already resolves to an existing Track row inserts no TrackPerson
row and no Person row, whatever names the record credits. -/
theorem StoreData_no_assoc_on_existing_track
    (db : DB) (data : Metadata) (now : String) (R : TrackRow)
    (hne : ¬(data.Title = "" ∧ data.Url = ""))
    (hfound : db.tracks.find? (fun r => r.url == data.Url && r.title == data.Title) = some R) :
    (StoreData none db data now).2 = Except.ok ()
    ∧ ((StoreData none db data now).1).trackPersons = db.trackPersons
    ∧ ((StoreData none db data now).1).persons = db.persons := by
  rw [StoreData_found db data now R (guardFalse data.Title data.Url hne) hfound]
  exact ⟨rfl, rfl, rfl⟩

/-- Witness for the amended C9 theorem at the dbOneTrack fixture. -/
theorem StoreData_no_assoc_on_existing_track_witness :
    (StoreData none dbOneTrack dataRepeat "ts").2 = Except.ok ()
    ∧ ((StoreData none dbOneTrack dataRepeat "ts").1).trackPersons = dbOneTrack.trackPersons
    ∧ ((StoreData none dbOneTrack dataRepeat "ts").1).persons = dbOneTrack.persons :=
  StoreData_no_assoc_on_existing_track dbOneTrack dataRepeat "ts" ⟨1, "t", "", "u", none⟩
    (by decide) rfl

end MusicWatch
